import Mathlib

/-!
Verification of `pkg/deploy/broker.go` (submariner-operator broker deployment
orchestrator).

The Go functions `Broker`, `deploy`, `isValidComponents` and
`checkGlobalnetConfig` are embedded as pure Lean functions.  External
collaborators (`broker.Ensure`, `image.ForOperator`, `submarinerop.Ensure`,
`brokercr.Ensure`, the `datafile` store, `globalnet` helpers and the
kubeconfig producer `restConfigProducer.ForCluster`) are out of scope of the
orchestrator; their outcomes are supplied by an environment record `Env`, and
every invocation of one of them is recorded in an ordered call trace.
Reporter invocations are likewise recorded as an ordered event trace, so that
claims about reporting, phase ordering and short-circuiting become statements
about the produced traces.
-/

/-- A Go `error` value: either a base message (`fmt.Errorf`) or a wrapped
error (`errors.Wrap(cause, context)`). -/
inductive GoError where
  | msg (s : String)
  | wrap (context : String) (cause : GoError)
deriving DecidableEq, Repr

/-- Model of `errors.Wrap(err, context)`: in Go it returns `nil` when `err`
is `nil`; otherwise it wraps. -/
def wrapErr (context : String) (e : Option GoError) : Option GoError :=
  e.map (GoError.wrap context)

namespace components

/-- Constant `components.ServiceDiscovery` from pkg/subctl/components. -/
def ServiceDiscovery : String := "service-discovery"

/-- Constant `components.Connectivity` from pkg/subctl/components. -/
def Connectivity : String := "connectivity"

/-- Constant `components.Globalnet` from pkg/subctl/components. -/
def Globalnet : String := "globalnet"

end components

/-- The package variable ValidComponents, holding ServiceDiscovery and
Connectivity. -/
def ValidComponents : List String := [components.ServiceDiscovery, components.Connectivity]

/-- The constant `brokerDetailsFilename`, the conventional descriptor
filename "broker-info.subm". -/
def brokerDetailsFilename : String := "broker-info.subm"

/-- Model of `stringset.New(elems...)`: a set of strings, modelled as a
deduplicated list of its elements. -/
def mkSet (l : List String) : List String := l.dedup

/-- Model of `stringset.Add`: add an element to a string set. -/
def addElem (s : List String) (x : String) : List String :=
  if x ∈ s then s else s ++ [x]

/-- The broker spec `submarinerv1a1.BrokerSpec` (the fields that
pkg/deploy/broker.go reads). -/
structure BrokerSpec where
  Components : List String
  GlobalnetEnabled : Bool
  GlobalnetCIDRRange : String
  DefaultGlobalnetClusterSize : Nat
  DefaultCustomDomains : List String
deriving DecidableEq, Repr

/-- The options record `deploy.BrokerOptions`.  `GlobalCIDRConfigMap` is
carried but never read by `Broker`, so it is modelled as an opaque optional
token. -/
structure BrokerOptions where
  OperatorDebug : Bool
  IpsecSubmFile : String
  GlobalCIDRConfigMap : Option Unit
  Repository : String
  ImageVersion : String
  BrokerNamespace : String
  BrokerSpec : BrokerSpec
deriving DecidableEq, Repr

/-- The broker descriptor object (`datafile.SubctlData`): the fields
`pkg/deploy/broker.go` assigns.  The secret material and connection
coordinates produced by the external `datafile` store are opaque to the
orchestrator and not modelled. -/
structure SubctlData where
  ServiceDiscovery : Bool
  Components : List String
  CustomDomains : Option (List String)
deriving DecidableEq, Repr

/-- Modelled from the spec: `datafile.SetComponents` (pkg/subctl/datafile is
not under src/) records the resolved feature-component set in the descriptor
("The resolved feature-component set" is part of the Broker Descriptor). -/
def SubctlData.SetComponents (d : SubctlData) (s : List String) : SubctlData :=
  { d with Components := s }

/-- A reporter event, one per `eventreporter.Reporter` method invocation. -/
inductive Event where
  | started (msg : String)
  | succeeded (msg : String)
  | warned (msg : String)
  | failed (msg : String)
  | endedWith (err : Option GoError)
deriving DecidableEq, Repr

/-- An event announcing a failure: `Failed`, or `EndedWith` a non-nil error. -/
def Event.isFailure : Event → Bool
  | Event.started _ => false
  | Event.succeeded _ => false
  | Event.warned _ => false
  | Event.failed _ => true
  | Event.endedWith none => false
  | Event.endedWith (some _) => true

/-- One invocation of an external collaborator, with the arguments the
orchestrator passed. -/
inductive Call where
  | forCluster
  | brokerEnsure (comps : List String) (allowDisable : Bool) (ns : String)
  | imageForOperator (version repository : String)
  | submarineropEnsure (ns image : String) (debug : Bool)
  | brokercrEnsure (ns : String) (spec : BrokerSpec)
  | newFromFile (filename : String)
  | newFromCluster (ns ipsecFile : String)
  | backupIfExists (filename : String)
  | validateExistingGlobalNetworks (ns : String)
  | createGlobalnetConfigMap (enabled : Bool) (cidr : String) (clusterSize : Nat) (ns : String)
  | writeToFile (filename : String) (data : SubctlData)
deriving DecidableEq, Repr

/-- The constructor of a call, forgetting its arguments. -/
inductive CallTag where
  | forCluster
  | brokerEnsure
  | imageForOperator
  | submarineropEnsure
  | brokercrEnsure
  | newFromFile
  | newFromCluster
  | backupIfExists
  | validateExistingGlobalNetworks
  | createGlobalnetConfigMap
  | writeToFile
deriving DecidableEq, Repr

/-- Tag of a call. -/
def Call.tag : Call → CallTag
  | Call.forCluster => CallTag.forCluster
  | Call.brokerEnsure _ _ _ => CallTag.brokerEnsure
  | Call.imageForOperator _ _ => CallTag.imageForOperator
  | Call.submarineropEnsure _ _ _ => CallTag.submarineropEnsure
  | Call.brokercrEnsure _ _ => CallTag.brokercrEnsure
  | Call.newFromFile _ => CallTag.newFromFile
  | Call.newFromCluster _ _ => CallTag.newFromCluster
  | Call.backupIfExists _ => CallTag.backupIfExists
  | Call.validateExistingGlobalNetworks _ => CallTag.validateExistingGlobalNetworks
  | Call.createGlobalnetConfigMap _ _ _ _ => CallTag.createGlobalnetConfigMap
  | Call.writeToFile _ _ => CallTag.writeToFile

/-- Whether a call mutates the cluster or touches the filesystem.
`ForCluster` only resolves the kubeconfig and `image.ForOperator` only
resolves an image reference; every other collaborator call mutates cluster
state or performs file/cluster data I/O. -/
def Call.isMutating : Call → Bool
  | Call.forCluster => false
  | Call.imageForOperator _ _ => false
  | _ => true

/-- Outcomes of every external collaborator call, supplied by the world the
orchestrator runs in.  `newFromCluster` may depend on the namespace and
descriptor-path arguments the orchestrator passes; `submarinerop.Ensure` is
handed the reporter and may emit its own events (`submarineropEvents`). -/
structure Env where
  ensureRBAC : Option GoError
  forOperatorImage : Except GoError String
  submarineropEnsure : Option GoError
  submarineropEvents : List Event
  brokercrEnsure : Option GoError
  forCluster : Except GoError Unit
  newFromFile : Except GoError SubctlData
  newFromCluster : String → String → Except GoError SubctlData
  backupIfExists : Except GoError String
  validateExistingGlobalNetworks : Option GoError
  createGlobalnetConfigMap : Option GoError
  writeToFile : Option GoError
  getValidClusterSize : String → Nat → Nat × Option GoError
  isValidCIDR : String → Option GoError

/-- Result of running `deploy`. -/
structure DeployResult where
  events : List Event
  calls : List Call
  result : Option GoError
deriving DecidableEq, Repr

/-- Result of running `Broker`: the reporter-event trace, the external-call
trace, the returned error, and the final state of the (pointer-passed,
mutated) options. -/
structure RunResult where
  events : List Event
  calls : List Call
  result : Option GoError
  finalOptions : BrokerOptions
deriving Repr

/-- Validation `isValidComponents` from pkg/deploy/broker.go: at least one
component,
each drawn from `ValidComponents`.  The set iteration order of
`stringset.Elements` only influences which unknown component the error
message names, not whether an error occurs. -/
def isValidComponents (componentSet : List String) : Option GoError :=
  if componentSet.length < 1 then
    some (GoError.msg "at least one component must be provided for deployment")
  else
    match componentSet.find? (fun c => !(ValidComponents.contains c)) with
    | some c => some (GoError.msg ("unknown component: " ++ c))
    | none => none

/-- Validation `checkGlobalnetConfig` from pkg/deploy/broker.go.  It
receives the
options by pointer; the returned pair is (options after the call, returned
error).  Note the Go multiple assignment writes
`options.BrokerSpec.DefaultGlobalnetClusterSize` even when
`GetValidClusterSize` also returns an error. -/
def checkGlobalnetConfig (options : BrokerOptions) (env : Env) :
    BrokerOptions × Option GoError :=
  if !options.BrokerSpec.GlobalnetEnabled then
    (options, none)
  else
    let r := env.getValidClusterSize options.BrokerSpec.GlobalnetCIDRRange
      options.BrokerSpec.DefaultGlobalnetClusterSize
    let options1 := { options with
      BrokerSpec := { options.BrokerSpec with DefaultGlobalnetClusterSize := r.1 } }
    match r.2 with
    | some e => (options1, some e)
    | none => (options1, env.isValidCIDR options1.BrokerSpec.GlobalnetCIDRRange)

/-- The constant `constants.OperatorNamespace` (internal/constants). -/
def OperatorNamespace : String := "submariner-operator"

/-- Function `deploy` from pkg/deploy/broker.go lines 129-164: RBAC,
operator image
resolution, operator installation, broker custom resource. -/
def deploy (options : BrokerOptions) (env : Env) : DeployResult :=
  let ev1 := [Event.started "Setting up broker RBAC",
    Event.endedWith env.ensureRBAC]
  let cs1 := [Call.brokerEnsure options.BrokerSpec.Components false options.BrokerNamespace]
  match env.ensureRBAC with
  | some e => ⟨ev1, cs1, some (GoError.wrap "error setting up broker RBAC" e)⟩
  | none =>
    let ev2 := ev1 ++ [Event.started "Deploying the Submariner operator"]
    let cs2 := cs1 ++ [Call.imageForOperator options.ImageVersion options.Repository]
    match env.forOperatorImage with
    | Except.error e => ⟨ev2, cs2, some (GoError.wrap "error getting Operator image" e)⟩
    | Except.ok operatorImage =>
      let ev3 := ev2 ++ env.submarineropEvents ++ [Event.endedWith env.submarineropEnsure]
      let cs3 := cs2 ++ [Call.submarineropEnsure OperatorNamespace operatorImage options.OperatorDebug]
      match env.submarineropEnsure with
      | some e => ⟨ev3, cs3, some (GoError.wrap "error deploying the operator" e)⟩
      | none =>
        let ev4 := ev3 ++ [Event.started "Deploying the broker"]
        let cs4 := cs3 ++ [Call.brokercrEnsure options.BrokerNamespace options.BrokerSpec]
        match env.brokercrEnsure with
        | none => ⟨ev4 ++ [Event.succeeded "The broker has been deployed"], cs4, none⟩
        | some e => ⟨ev4 ++ [Event.failed "Broker deployment failed"], cs4,
            some (GoError.wrap "error deploying the broker" e)⟩

/-- The tail of `Broker` from the existing-globalnet validation (line 112)
through `WriteToFile`/`EndedWith` (lines 123-126): split out so the final
phases can be reasoned about in isolation. -/
def brokerTail (options : BrokerOptions) (env : Env) (data : SubctlData)
    (evs : List Event) (calls : List Call) : RunResult :=
  let gvalid : List Call × Option GoError :=
    if options.BrokerSpec.GlobalnetEnabled then
      ([Call.validateExistingGlobalNetworks options.BrokerNamespace],
        env.validateExistingGlobalNetworks)
    else ([], none)
  let calls1 := calls ++ gvalid.1
  match gvalid.2 with
  | some e => ⟨evs, calls1,
      some (GoError.wrap "error validating existing globalCIDR configmap" e), options⟩
  | none =>
    let calls2 := calls1 ++ [Call.createGlobalnetConfigMap
      options.BrokerSpec.GlobalnetEnabled options.BrokerSpec.GlobalnetCIDRRange
      options.BrokerSpec.DefaultGlobalnetClusterSize options.BrokerNamespace]
    match env.createGlobalnetConfigMap with
    | some e => ⟨evs, calls2,
        some (GoError.wrap "error creating globalCIDR configmap on Broker" e), options⟩
    | none =>
      ⟨evs ++ [Event.endedWith env.writeToFile],
        calls2 ++ [Call.writeToFile brokerDetailsFilename data],
        wrapErr "error writing the broker information" env.writeToFile,
        options⟩

/-- Function `Broker` from pkg/deploy/broker.go lines 55-127. -/
def Broker (options : BrokerOptions) (env : Env) : RunResult :=
  let componentSet := mkSet options.BrokerSpec.Components
  match isValidComponents componentSet with
  | some e => ⟨[], [], some (GoError.wrap "invalid components parameter" e), options⟩
  | none =>
    let componentSet :=
      if options.BrokerSpec.GlobalnetEnabled then addElem componentSet components.Globalnet
      else componentSet
    let cg := checkGlobalnetConfig options env
    let options1 := cg.1
    match cg.2 with
    | some e => ⟨[], [], some (GoError.wrap "invalid GlobalCIDR configuration" e), options1⟩
    | none =>
      match env.forCluster with
      | Except.error e => ⟨[], [Call.forCluster],
          some (GoError.wrap "the provided kubeconfig is invalid" e), options1⟩
      | Except.ok _ =>
        let d := deploy options1 env
        match d.result with
        | some e => ⟨d.events, Call.forCluster :: d.calls, some e, options1⟩
        | none =>
          let evs := d.events ++
            [Event.started ("Creating " ++ brokerDetailsFilename ++ " file")]
          let calls := Call.forCluster :: d.calls
          let psk : List Event × List Call × BrokerOptions :=
            if options1.IpsecSubmFile = "" then
              match env.newFromFile with
              | Except.ok _ =>
                ([Event.warned ("Reusing IPsec PSK from existing " ++ brokerDetailsFilename)],
                  [Call.newFromFile brokerDetailsFilename],
                  { options1 with IpsecSubmFile := brokerDetailsFilename })
              | Except.error _ =>
                ([Event.succeeded ("A new IPsec PSK will be generated for " ++ brokerDetailsFilename)],
                  [Call.newFromFile brokerDetailsFilename], options1)
            else ([], [], options1)
          let options2 := psk.2.2
          let evs := evs ++ psk.1
          let calls := calls ++ psk.2.1 ++
            [Call.newFromCluster options2.BrokerNamespace options2.IpsecSubmFile]
          match env.newFromCluster options2.BrokerNamespace options2.IpsecSubmFile with
          | Except.error e => ⟨evs, calls,
              some (GoError.wrap "error retrieving preparing the subm data file" e), options2⟩
          | Except.ok data0 =>
            let calls := calls ++ [Call.backupIfExists brokerDetailsFilename]
            match env.backupIfExists with
            | Except.error e => ⟨evs, calls,
                some (GoError.wrap "error backing up the brokerfile" e), options2⟩
            | Except.ok newFilename =>
              let evs := if newFilename ≠ "" then
                  evs ++ [Event.succeeded ("Backed up previous " ++ brokerDetailsFilename
                    ++ " to " ++ newFilename)]
                else evs
              let data1 := { data0 with
                ServiceDiscovery := componentSet.contains components.ServiceDiscovery }
              let data2 := data1.SetComponents componentSet
              let data3 :=
                if options2.BrokerSpec.DefaultCustomDomains.length > 0 then
                  { data2 with CustomDomains := some options2.BrokerSpec.DefaultCustomDomains }
                else data2
              brokerTail options2 env data3 evs calls

/-- Scan a call-tag trace: `true` iff no `writeToFile` call occurs before
the first `createGlobalnetConfigMap` call, i.e. any descriptor write is
preceded by an addressing-config creation. -/
def noWriteBeforeCreate : List CallTag → Bool
  | [] => true
  | CallTag.createGlobalnetConfigMap :: _ => true
  | CallTag.writeToFile :: _ => false
  | _ :: rest => noWriteBeforeCreate rest

/-- Scan a call-tag trace: `true` iff no `createGlobalnetConfigMap` call
occurs before the first `backupIfExists` call, i.e. any addressing-config
creation is preceded by the descriptor backup. -/
def noCreateBeforeBackup : List CallTag → Bool
  | [] => true
  | CallTag.backupIfExists :: _ => true
  | CallTag.createGlobalnetConfigMap :: _ => false
  | _ :: rest => noCreateBeforeBackup rest

/-- A well-formed baseline request: connectivity only, globalnet disabled. -/
def optsBase : BrokerOptions :=
  { OperatorDebug := false
    IpsecSubmFile := ""
    GlobalCIDRConfigMap := none
    Repository := "quay.io/submariner"
    ImageVersion := "0.12.0"
    BrokerNamespace := "submariner-k8s-broker"
    BrokerSpec :=
      { Components := [components.Connectivity]
        GlobalnetEnabled := false
        GlobalnetCIDRRange := ""
        DefaultGlobalnetClusterSize := 0
        DefaultCustomDomains := [] } }

/-- The baseline request with globalnet enabled on a /8 range. -/
def optsGlobalnet : BrokerOptions :=
  { optsBase with BrokerSpec :=
    { optsBase.BrokerSpec with
      GlobalnetEnabled := true
      GlobalnetCIDRRange := "240.0.0.0/8" } }

/-- The descriptor object the cluster-side store hands back. -/
def dataFresh : SubctlData :=
  { ServiceDiscovery := false, Components := [], CustomDomains := none }

/-- A world in which every external collaborator succeeds and no prior
descriptor file exists. -/
def envAllOk : Env :=
  { ensureRBAC := none
    forOperatorImage := Except.ok "quay.io/submariner/submariner-operator:0.12.0"
    submarineropEnsure := none
    submarineropEvents := []
    brokercrEnsure := none
    forCluster := Except.ok ()
    newFromFile := Except.error (GoError.msg "open broker-info.subm: no such file or directory")
    newFromCluster := fun _ _ => Except.ok dataFresh
    backupIfExists := Except.ok ""
    validateExistingGlobalNetworks := none
    createGlobalnetConfigMap := none
    writeToFile := none
    getValidClusterSize := fun _ n => (if n = 0 then 8 else n, none)
    isValidCIDR := fun _ => none }

/-- A run in which operator image resolution fails. -/
def envImageFail : Env :=
  { envAllOk with forOperatorImage := Except.error (GoError.msg "no operator image available") }

/-- The baseline request with an unrecognized component name. -/
def optsBogus : BrokerOptions :=
  { optsBase with BrokerSpec := { optsBase.BrokerSpec with Components := ["bogus"] } }

/-- The baseline request (globalnet disabled) with a caller-supplied
cluster size. -/
def optsSizeSeven : BrokerOptions :=
  { optsBase with BrokerSpec :=
    { optsBase.BrokerSpec with DefaultGlobalnetClusterSize := 7 } }

/-- The specs handed to `brokercr.Ensure` during a run, in call order. -/
def brokercrSpecs (cs : List Call) : List BrokerSpec :=
  cs.filterMap fun c =>
    match c with
    | Call.brokercrEnsure _ spec => some spec
    | _ => none

theorem isValidComponents_none_iff (s : List String) :
    isValidComponents s = none ↔ s ≠ [] ∧ ∀ c ∈ s, c ∈ ValidComponents := by
  unfold isValidComponents
  split
  · next h =>
    have hs : s = [] := by
      cases s with
      | nil => rfl
      | cons a t => simp at h
    simp [hs]
  · next h =>
    have hs : s ≠ [] := by
      intro hnil
      subst hnil
      simp at h
    constructor
    · intro hf
      refine ⟨hs, fun c hc => ?_⟩
      split at hf
      · exact absurd hf (by simp)
      · next hfind =>
        have := List.find?_eq_none.mp hfind c hc
        simpa using this
    · rintro ⟨-, hall⟩
      split
      · next c0 hfind =>
        have hmem := List.mem_of_find?_eq_some hfind
        have hp := List.find?_some hfind
        have hin := hall c0 hmem
        simp at hp
        exact absurd hin hp
      · rfl

theorem checkGlobalnetConfig_fst (o : BrokerOptions) (env : Env) :
    (checkGlobalnetConfig o env).1.IpsecSubmFile = o.IpsecSubmFile ∧
    (checkGlobalnetConfig o env).1.BrokerNamespace = o.BrokerNamespace ∧
    (checkGlobalnetConfig o env).1.BrokerSpec.Components = o.BrokerSpec.Components ∧
    (checkGlobalnetConfig o env).1.BrokerSpec.GlobalnetEnabled = o.BrokerSpec.GlobalnetEnabled ∧
    (checkGlobalnetConfig o env).1.BrokerSpec.GlobalnetCIDRRange = o.BrokerSpec.GlobalnetCIDRRange ∧
    (checkGlobalnetConfig o env).1.BrokerSpec.DefaultCustomDomains = o.BrokerSpec.DefaultCustomDomains ∧
    (checkGlobalnetConfig o env).1.OperatorDebug = o.OperatorDebug ∧
    (checkGlobalnetConfig o env).1.ImageVersion = o.ImageVersion ∧
    (checkGlobalnetConfig o env).1.Repository = o.Repository := by
  unfold checkGlobalnetConfig
  split
  · simp
  · dsimp only
    split <;> simp

theorem mem_addElem_self (s : List String) (x : String) : x ∈ addElem s x := by
  unfold addElem
  split
  · assumption
  · simp

theorem mem_addElem_of_mem (s : List String) (x y : String) (h : y ∈ s) :
    y ∈ addElem s x := by
  unfold addElem
  split
  · exact h
  · simp [h]

/-- C4: component validation succeeds exactly on the non-empty sets drawn
from the recognized vocabulary: `isValidComponents` returns no error iff the
set is non-empty and every element is in
`ValidComponents = [service-discovery, connectivity]`; it returns an error
for the empty set and for any set containing an element outside that
vocabulary. -/
theorem c4_isValidComponents_characterization (s : List String) :
    isValidComponents s = none ↔ s ≠ [] ∧ ∀ c ∈ s, c ∈ ValidComponents :=
  isValidComponents_none_iff s

/-- C4 witness: the singleton {connectivity} passes validation. -/
theorem c4_witness : isValidComponents [components.Connectivity] = none :=
  (c4_isValidComponents_characterization [components.Connectivity]).mpr (by decide)

/-- C9 counterexample: with globalnet disabled and a caller-supplied cluster
size of 7, `checkGlobalnetConfig` returns no error but the cluster-size field
after the call is 7, not the zero value, so "the resolved cluster size is the
zero value" fails. -/
theorem c9_counterexample :
    (checkGlobalnetConfig optsSizeSeven envAllOk).2 = none ∧
    (checkGlobalnetConfig optsSizeSeven envAllOk).1.BrokerSpec.DefaultGlobalnetClusterSize = 7 ∧
    ¬ (checkGlobalnetConfig optsSizeSeven envAllOk).1.BrokerSpec.DefaultGlobalnetClusterSize = 0 := by
  decide

/-- C9 (amended): when globalnetEnabled is false, `checkGlobalnetConfig` is a
no-op: it returns no error, performs no derivation or validation of the CIDR
range or cluster size (the result is independent of the environment), and
leaves the options — in particular the cluster-size field — unchanged rather
than zeroed. -/
theorem c9_checkGlobalnetConfig_noop_when_disabled (opts : BrokerOptions) (env : Env)
    (h : opts.BrokerSpec.GlobalnetEnabled = false) :
    checkGlobalnetConfig opts env = (opts, none) := by
  unfold checkGlobalnetConfig
  simp [h]

/-- C9 witness: the amended no-op behavior at the baseline request. -/
theorem c9_witness :
    optsBase.BrokerSpec.GlobalnetEnabled = false ∧
    checkGlobalnetConfig optsBase envAllOk = (optsBase, none) :=
  ⟨rfl, c9_checkGlobalnetConfig_noop_when_disabled optsBase envAllOk rfl⟩

/-- C6: whenever validation fails — invalid components, invalid globalnet
configuration, or invalid kubeconfig resolution — `Broker` returns the
wrapped validation error with no reporter event emitted and no
cluster-mutating or file-I/O call attempted. -/
theorem c6_validation_errors_precede_everything (opts : BrokerOptions) (env : Env) :
    (∀ e, isValidComponents (mkSet opts.BrokerSpec.Components) = some e →
      (Broker opts env).events = [] ∧ (Broker opts env).calls = [] ∧
      (Broker opts env).result = some (GoError.wrap "invalid components parameter" e)) ∧
    (∀ e, isValidComponents (mkSet opts.BrokerSpec.Components) = none →
      (checkGlobalnetConfig opts env).2 = some e →
      (Broker opts env).events = [] ∧ (Broker opts env).calls = [] ∧
      (Broker opts env).result = some (GoError.wrap "invalid GlobalCIDR configuration" e)) ∧
    (∀ e, isValidComponents (mkSet opts.BrokerSpec.Components) = none →
      (checkGlobalnetConfig opts env).2 = none →
      env.forCluster = Except.error e →
      (Broker opts env).events = [] ∧
      ((Broker opts env).calls.all fun c => !c.isMutating) = true ∧
      (Broker opts env).result = some (GoError.wrap "the provided kubeconfig is invalid" e)) := by
  refine ⟨fun e hv => ?_, fun e hv hc => ?_, fun e hv hc hk => ?_⟩
  · simp [Broker, hv]
  · simp [Broker, hv, hc]
  · simp [Broker, hv, hc, hk, Call.isMutating]

/-- C6 witness: a request with components {"bogus"} is rejected before any
event or mutating call, with the wrapped `unknown component` error. -/
theorem c6_witness :
    (Broker optsBogus envAllOk).events = [] ∧ (Broker optsBogus envAllOk).calls = [] ∧
    (Broker optsBogus envAllOk).result =
      some (GoError.wrap "invalid components parameter" (GoError.msg "unknown component: bogus")) :=
  (c6_validation_errors_precede_everything optsBogus envAllOk).1
    (GoError.msg "unknown component: bogus") (by decide)

/-- C1 counterexample: with the operator image resolution failing (all other
collaborators fine), `Broker` returns a wrapped provisioning-phase error
("error getting Operator image") yet the event trace contains no failure
announcement — neither `Failed` nor `EndedWith` with a non-nil error — so
not every provisioning-phase error is announced to the reporter. -/
theorem c1_counterexample :
    (Broker optsBase envImageFail).result =
      some (GoError.wrap "error getting Operator image"
        (GoError.msg "no operator image available")) ∧
    ((Broker optsBase envImageFail).events.all fun ev => !ev.isFailure) = true ∧
    (Broker optsBase envImageFail).events =
      [Event.started "Setting up broker RBAC", Event.endedWith none,
       Event.started "Deploying the Submariner operator"] := by
  decide

/-- C2 counterexample: in a fully successful run of the baseline request the
addressing configuration object is created (call index 8) strictly before
the descriptor file is written (call index 9), the reverse of the claimed
order. -/
theorem c2_counterexample :
    (Broker optsBase envAllOk).calls.map Call.tag =
      [CallTag.forCluster, CallTag.brokerEnsure, CallTag.imageForOperator,
       CallTag.submarineropEnsure, CallTag.brokercrEnsure, CallTag.newFromFile,
       CallTag.newFromCluster, CallTag.backupIfExists,
       CallTag.createGlobalnetConfigMap, CallTag.writeToFile] ∧
    List.indexOf CallTag.createGlobalnetConfigMap ((Broker optsBase envAllOk).calls.map Call.tag) <
      List.indexOf CallTag.writeToFile ((Broker optsBase envAllOk).calls.map Call.tag) := by
  decide

theorem deploy_cases (o : BrokerOptions) (env : Env) :
    (∃ e, env.ensureRBAC = some e ∧
      deploy o env = ⟨[Event.started "Setting up broker RBAC", Event.endedWith (some e)],
        [Call.brokerEnsure o.BrokerSpec.Components false o.BrokerNamespace],
        some (GoError.wrap "error setting up broker RBAC" e)⟩) ∨
    (∃ e, env.ensureRBAC = none ∧ env.forOperatorImage = Except.error e ∧
      deploy o env = ⟨[Event.started "Setting up broker RBAC", Event.endedWith none,
          Event.started "Deploying the Submariner operator"],
        [Call.brokerEnsure o.BrokerSpec.Components false o.BrokerNamespace,
          Call.imageForOperator o.ImageVersion o.Repository],
        some (GoError.wrap "error getting Operator image" e)⟩) ∨
    (∃ e img, env.ensureRBAC = none ∧ env.forOperatorImage = Except.ok img ∧
      env.submarineropEnsure = some e ∧
      deploy o env = ⟨[Event.started "Setting up broker RBAC", Event.endedWith none,
          Event.started "Deploying the Submariner operator"] ++ env.submarineropEvents ++
          [Event.endedWith (some e)],
        [Call.brokerEnsure o.BrokerSpec.Components false o.BrokerNamespace,
          Call.imageForOperator o.ImageVersion o.Repository,
          Call.submarineropEnsure OperatorNamespace img o.OperatorDebug],
        some (GoError.wrap "error deploying the operator" e)⟩) ∨
    (∃ e img, env.ensureRBAC = none ∧ env.forOperatorImage = Except.ok img ∧
      env.submarineropEnsure = none ∧ env.brokercrEnsure = some e ∧
      deploy o env = ⟨[Event.started "Setting up broker RBAC", Event.endedWith none,
          Event.started "Deploying the Submariner operator"] ++ env.submarineropEvents ++
          [Event.endedWith none, Event.started "Deploying the broker",
            Event.failed "Broker deployment failed"],
        [Call.brokerEnsure o.BrokerSpec.Components false o.BrokerNamespace,
          Call.imageForOperator o.ImageVersion o.Repository,
          Call.submarineropEnsure OperatorNamespace img o.OperatorDebug,
          Call.brokercrEnsure o.BrokerNamespace o.BrokerSpec],
        some (GoError.wrap "error deploying the broker" e)⟩) ∨
    (∃ img, env.ensureRBAC = none ∧ env.forOperatorImage = Except.ok img ∧
      env.submarineropEnsure = none ∧ env.brokercrEnsure = none ∧
      deploy o env = ⟨[Event.started "Setting up broker RBAC", Event.endedWith none,
          Event.started "Deploying the Submariner operator"] ++ env.submarineropEvents ++
          [Event.endedWith none, Event.started "Deploying the broker",
            Event.succeeded "The broker has been deployed"],
        [Call.brokerEnsure o.BrokerSpec.Components false o.BrokerNamespace,
          Call.imageForOperator o.ImageVersion o.Repository,
          Call.submarineropEnsure OperatorNamespace img o.OperatorDebug,
          Call.brokercrEnsure o.BrokerNamespace o.BrokerSpec],
        none⟩) := by
  rcases hr : env.ensureRBAC with _ | e
  · rcases hi : env.forOperatorImage with e | img
    · exact Or.inr (Or.inl ⟨e, rfl, rfl, by simp [deploy, hr, hi]⟩)
    · rcases hs : env.submarineropEnsure with _ | e
      · rcases hcr : env.brokercrEnsure with _ | e
        · exact Or.inr (Or.inr (Or.inr (Or.inr
            ⟨img, rfl, rfl, rfl, rfl, by simp [deploy, hr, hi, hs, hcr]⟩)))
        · exact Or.inr (Or.inr (Or.inr (Or.inl
            ⟨e, img, rfl, rfl, rfl, rfl, by simp [deploy, hr, hi, hs, hcr]⟩)))
      · exact Or.inr (Or.inr (Or.inl ⟨e, img, rfl, rfl, rfl, by simp [deploy, hr, hi, hs]⟩))
  · exact Or.inl ⟨e, rfl, by simp [deploy, hr]⟩

theorem broker_tags_cases (opts : BrokerOptions) (env : Env) :
    (Broker opts env).calls.map Call.tag = [] ∨
    (Broker opts env).calls.map Call.tag = [CallTag.forCluster] ∨
    (Broker opts env).calls.map Call.tag =
      CallTag.forCluster ::
        ((deploy (checkGlobalnetConfig opts env).1 env).calls.map Call.tag) ∨
    (∃ P G W,
      (P = [CallTag.newFromFile] ∨ P = []) ∧
      (G = [CallTag.validateExistingGlobalNetworks] ∨ G = []) ∧
      (W = [CallTag.newFromCluster] ∨
        W = [CallTag.newFromCluster, CallTag.backupIfExists] ∨
        W = [CallTag.newFromCluster, CallTag.backupIfExists] ++ G ∨
        W = [CallTag.newFromCluster, CallTag.backupIfExists] ++ G ++
          [CallTag.createGlobalnetConfigMap] ∨
        (env.createGlobalnetConfigMap = none ∧
          W = [CallTag.newFromCluster, CallTag.backupIfExists] ++ G ++
            [CallTag.createGlobalnetConfigMap, CallTag.writeToFile])) ∧
      (deploy (checkGlobalnetConfig opts env).1 env).result = none ∧
      (Broker opts env).calls.map Call.tag =
        (CallTag.forCluster ::
          ((deploy (checkGlobalnetConfig opts env).1 env).calls.map Call.tag))
          ++ P ++ W) := by
  rcases hv : isValidComponents (mkSet opts.BrokerSpec.Components) with _ | e1
  · rcases hc : (checkGlobalnetConfig opts env).2 with _ | e2
    · rcases hk : env.forCluster with e3 | u
      · exact Or.inr (Or.inl (by simp [Broker, hv, hc, hk, Call.tag]))
      · rcases hd : (deploy (checkGlobalnetConfig opts env).1 env).result with _ | e4
        · refine Or.inr (Or.inr (Or.inr ?_))
          by_cases hip : (checkGlobalnetConfig opts env).1.IpsecSubmFile = ""
          · rcases hnf : env.newFromFile with e5 | d5
            · rcases hncl : env.newFromCluster
                  (checkGlobalnetConfig opts env).1.BrokerNamespace "" with e6 | data0
              · exact ⟨[CallTag.newFromFile], [], [CallTag.newFromCluster], Or.inl rfl,
                  Or.inr rfl, Or.inl rfl, rfl,
                  by simp [Broker, hv, hc, hk, hd, hip, hnf, hncl, Call.tag]⟩
              · rcases hb : env.backupIfExists with e7 | nf
                · exact ⟨[CallTag.newFromFile], [],
                    [CallTag.newFromCluster, CallTag.backupIfExists], Or.inl rfl,
                    Or.inr rfl, Or.inr (Or.inl rfl), rfl,
                    by simp [Broker, hv, hc, hk, hd, hip, hnf, hncl, hb, Call.tag]⟩
                · by_cases hen : (checkGlobalnetConfig opts env).1.BrokerSpec.GlobalnetEnabled = true
                  · rcases hvg : env.validateExistingGlobalNetworks with _ | e8
                    · rcases hcg : env.createGlobalnetConfigMap with _ | e9
                      · exact ⟨[CallTag.newFromFile], [CallTag.validateExistingGlobalNetworks],
                          [CallTag.newFromCluster, CallTag.backupIfExists] ++
                            [CallTag.validateExistingGlobalNetworks] ++
                            [CallTag.createGlobalnetConfigMap, CallTag.writeToFile],
                          Or.inl rfl, Or.inl rfl, Or.inr (Or.inr (Or.inr (Or.inr ⟨rfl, rfl⟩))), rfl,
                          by simp [Broker, brokerTail, hv, hc, hk, hd, hip, hnf, hncl, hb, hen,
                            hvg, hcg, Call.tag]⟩
                      · exact ⟨[CallTag.newFromFile], [CallTag.validateExistingGlobalNetworks],
                          [CallTag.newFromCluster, CallTag.backupIfExists] ++
                            [CallTag.validateExistingGlobalNetworks] ++
                            [CallTag.createGlobalnetConfigMap],
                          Or.inl rfl, Or.inl rfl, Or.inr (Or.inr (Or.inr (Or.inl rfl))), rfl,
                          by simp [Broker, brokerTail, hv, hc, hk, hd, hip, hnf, hncl, hb, hen,
                            hvg, hcg, Call.tag]⟩
                    · exact ⟨[CallTag.newFromFile], [CallTag.validateExistingGlobalNetworks],
                        [CallTag.newFromCluster, CallTag.backupIfExists] ++
                          [CallTag.validateExistingGlobalNetworks],
                        Or.inl rfl, Or.inl rfl, Or.inr (Or.inr (Or.inl rfl)), rfl,
                        by simp [Broker, brokerTail, hv, hc, hk, hd, hip, hnf, hncl, hb, hen,
                          hvg, Call.tag]⟩
                  · rcases hcg : env.createGlobalnetConfigMap with _ | e9
                    · exact ⟨[CallTag.newFromFile], [],
                        [CallTag.newFromCluster, CallTag.backupIfExists] ++ [] ++
                          [CallTag.createGlobalnetConfigMap, CallTag.writeToFile],
                        Or.inl rfl, Or.inr rfl, Or.inr (Or.inr (Or.inr (Or.inr ⟨rfl, rfl⟩))), rfl,
                        by simp [Broker, brokerTail, hv, hc, hk, hd, hip, hnf, hncl, hb, hen,
                          hcg, Call.tag]⟩
                    · exact ⟨[CallTag.newFromFile], [],
                        [CallTag.newFromCluster, CallTag.backupIfExists] ++ [] ++
                          [CallTag.createGlobalnetConfigMap],
                        Or.inl rfl, Or.inr rfl, Or.inr (Or.inr (Or.inr (Or.inl rfl))), rfl,
                        by simp [Broker, brokerTail, hv, hc, hk, hd, hip, hnf, hncl, hb, hen,
                          hcg, Call.tag]⟩
            · rcases hncl : env.newFromCluster
                  (checkGlobalnetConfig opts env).1.BrokerNamespace brokerDetailsFilename
                  with e6 | data0
              · exact ⟨[CallTag.newFromFile], [], [CallTag.newFromCluster], Or.inl rfl,
                  Or.inr rfl, Or.inl rfl, rfl,
                  by simp [Broker, hv, hc, hk, hd, hip, hnf, hncl, Call.tag]⟩
              · rcases hb : env.backupIfExists with e7 | nf
                · exact ⟨[CallTag.newFromFile], [],
                    [CallTag.newFromCluster, CallTag.backupIfExists], Or.inl rfl,
                    Or.inr rfl, Or.inr (Or.inl rfl), rfl,
                    by simp [Broker, hv, hc, hk, hd, hip, hnf, hncl, hb, Call.tag]⟩
                · by_cases hen : (checkGlobalnetConfig opts env).1.BrokerSpec.GlobalnetEnabled = true
                  · rcases hvg : env.validateExistingGlobalNetworks with _ | e8
                    · rcases hcg : env.createGlobalnetConfigMap with _ | e9
                      · exact ⟨[CallTag.newFromFile], [CallTag.validateExistingGlobalNetworks],
                          [CallTag.newFromCluster, CallTag.backupIfExists] ++
                            [CallTag.validateExistingGlobalNetworks] ++
                            [CallTag.createGlobalnetConfigMap, CallTag.writeToFile],
                          Or.inl rfl, Or.inl rfl, Or.inr (Or.inr (Or.inr (Or.inr ⟨rfl, rfl⟩))), rfl,
                          by simp [Broker, brokerTail, hv, hc, hk, hd, hip, hnf, hncl, hb, hen,
                            hvg, hcg, Call.tag]⟩
                      · exact ⟨[CallTag.newFromFile], [CallTag.validateExistingGlobalNetworks],
                          [CallTag.newFromCluster, CallTag.backupIfExists] ++
                            [CallTag.validateExistingGlobalNetworks] ++
                            [CallTag.createGlobalnetConfigMap],
                          Or.inl rfl, Or.inl rfl, Or.inr (Or.inr (Or.inr (Or.inl rfl))), rfl,
                          by simp [Broker, brokerTail, hv, hc, hk, hd, hip, hnf, hncl, hb, hen,
                            hvg, hcg, Call.tag]⟩
                    · exact ⟨[CallTag.newFromFile], [CallTag.validateExistingGlobalNetworks],
                        [CallTag.newFromCluster, CallTag.backupIfExists] ++
                          [CallTag.validateExistingGlobalNetworks],
                        Or.inl rfl, Or.inl rfl, Or.inr (Or.inr (Or.inl rfl)), rfl,
                        by simp [Broker, brokerTail, hv, hc, hk, hd, hip, hnf, hncl, hb, hen,
                          hvg, Call.tag]⟩
                  · rcases hcg : env.createGlobalnetConfigMap with _ | e9
                    · exact ⟨[CallTag.newFromFile], [],
                        [CallTag.newFromCluster, CallTag.backupIfExists] ++ [] ++
                          [CallTag.createGlobalnetConfigMap, CallTag.writeToFile],
                        Or.inl rfl, Or.inr rfl, Or.inr (Or.inr (Or.inr (Or.inr ⟨rfl, rfl⟩))), rfl,
                        by simp [Broker, brokerTail, hv, hc, hk, hd, hip, hnf, hncl, hb, hen,
                          hcg, Call.tag]⟩
                    · exact ⟨[CallTag.newFromFile], [],
                        [CallTag.newFromCluster, CallTag.backupIfExists] ++ [] ++
                          [CallTag.createGlobalnetConfigMap],
                        Or.inl rfl, Or.inr rfl, Or.inr (Or.inr (Or.inr (Or.inl rfl))), rfl,
                        by simp [Broker, brokerTail, hv, hc, hk, hd, hip, hnf, hncl, hb, hen,
                          hcg, Call.tag]⟩
          · rcases hncl : env.newFromCluster
                (checkGlobalnetConfig opts env).1.BrokerNamespace
                (checkGlobalnetConfig opts env).1.IpsecSubmFile with e6 | data0
            · exact ⟨[], [], [CallTag.newFromCluster], Or.inr rfl,
                Or.inr rfl, Or.inl rfl, rfl,
                by simp [Broker, hv, hc, hk, hd, hip, hncl, Call.tag]⟩
            · rcases hb : env.backupIfExists with e7 | nf
              · exact ⟨[], [],
                  [CallTag.newFromCluster, CallTag.backupIfExists], Or.inr rfl,
                  Or.inr rfl, Or.inr (Or.inl rfl), rfl,
                  by simp [Broker, hv, hc, hk, hd, hip, hncl, hb, Call.tag]⟩
              · by_cases hen : (checkGlobalnetConfig opts env).1.BrokerSpec.GlobalnetEnabled = true
                · rcases hvg : env.validateExistingGlobalNetworks with _ | e8
                  · rcases hcg : env.createGlobalnetConfigMap with _ | e9
                    · exact ⟨[], [CallTag.validateExistingGlobalNetworks],
                        [CallTag.newFromCluster, CallTag.backupIfExists] ++
                          [CallTag.validateExistingGlobalNetworks] ++
                          [CallTag.createGlobalnetConfigMap, CallTag.writeToFile],
                        Or.inr rfl, Or.inl rfl, Or.inr (Or.inr (Or.inr (Or.inr ⟨rfl, rfl⟩))), rfl,
                        by simp [Broker, brokerTail, hv, hc, hk, hd, hip, hncl, hb, hen,
                          hvg, hcg, Call.tag]⟩
                    · exact ⟨[], [CallTag.validateExistingGlobalNetworks],
                        [CallTag.newFromCluster, CallTag.backupIfExists] ++
                          [CallTag.validateExistingGlobalNetworks] ++
                          [CallTag.createGlobalnetConfigMap],
                        Or.inr rfl, Or.inl rfl, Or.inr (Or.inr (Or.inr (Or.inl rfl))), rfl,
                        by simp [Broker, brokerTail, hv, hc, hk, hd, hip, hncl, hb, hen,
                          hvg, hcg, Call.tag]⟩
                  · exact ⟨[], [CallTag.validateExistingGlobalNetworks],
                      [CallTag.newFromCluster, CallTag.backupIfExists] ++
                        [CallTag.validateExistingGlobalNetworks],
                      Or.inr rfl, Or.inl rfl, Or.inr (Or.inr (Or.inl rfl)), rfl,
                      by simp [Broker, brokerTail, hv, hc, hk, hd, hip, hncl, hb, hen,
                        hvg, Call.tag]⟩
                · rcases hcg : env.createGlobalnetConfigMap with _ | e9
                  · exact ⟨[], [],
                      [CallTag.newFromCluster, CallTag.backupIfExists] ++ [] ++
                        [CallTag.createGlobalnetConfigMap, CallTag.writeToFile],
                      Or.inr rfl, Or.inr rfl, Or.inr (Or.inr (Or.inr (Or.inr ⟨rfl, rfl⟩))), rfl,
                      by simp [Broker, brokerTail, hv, hc, hk, hd, hip, hncl, hb, hen,
                        hcg, Call.tag]⟩
                  · exact ⟨[], [],
                      [CallTag.newFromCluster, CallTag.backupIfExists] ++ [] ++
                        [CallTag.createGlobalnetConfigMap],
                      Or.inr rfl, Or.inr rfl, Or.inr (Or.inr (Or.inr (Or.inl rfl))), rfl,
                      by simp [Broker, brokerTail, hv, hc, hk, hd, hip, hncl, hb, hen,
                        hcg, Call.tag]⟩
        · exact Or.inr (Or.inr (Or.inl (by simp [Broker, hv, hc, hk, hd, Call.tag])))
    · exact Or.inl (by simp [Broker, hv, hc])
  · exact Or.inl (by simp [Broker, hv])

/-- C2 (amended): in every run of `Broker`, the descriptor backup precedes
any addressing-config creation, and the new descriptor file write happens
only after the addressing configuration object has been created on the
cluster — the reverse of the claimed "persist strictly before addressing
config" ordering: phase order is backup, then create addressing config,
then write. -/
theorem c2_backup_then_create_then_write (opts : BrokerOptions) (env : Env) :
    noWriteBeforeCreate ((Broker opts env).calls.map Call.tag) = true ∧
    noCreateBeforeBackup ((Broker opts env).calls.map Call.tag) = true := by
  rcases broker_tags_cases opts env with h | h | h | ⟨P, G, W, hP, hG, hW, hres, h⟩
  · simp [h, noWriteBeforeCreate, noCreateBeforeBackup]
  · simp [h, noWriteBeforeCreate, noCreateBeforeBackup]
  · rcases deploy_cases (checkGlobalnetConfig opts env).1 env with
      ⟨e, h1, hdep⟩ | ⟨e, h1, h2, hdep⟩ | ⟨e, img, h1, h2, h3, hdep⟩ |
      ⟨e, img, h1, h2, h3, h4, hdep⟩ | ⟨img, h1, h2, h3, h4, hdep⟩ <;>
      simp [h, hdep, Call.tag, noWriteBeforeCreate, noCreateBeforeBackup]
  · rcases deploy_cases (checkGlobalnetConfig opts env).1 env with
      ⟨e, h1, hdep⟩ | ⟨e, h1, h2, hdep⟩ | ⟨e, img, h1, h2, h3, hdep⟩ |
      ⟨e, img, h1, h2, h3, h4, hdep⟩ | ⟨img, h1, h2, h3, h4, hdep⟩
    · rw [hdep] at hres; simp at hres
    · rw [hdep] at hres; simp at hres
    · rw [hdep] at hres; simp at hres
    · rw [hdep] at hres; simp at hres
    · rcases hP with hP | hP <;> rcases hG with hG | hG <;>
        rcases hW with hW | hW | hW | hW | ⟨-, hW⟩ <;> subst hP hG hW <;>
        simp [h, hdep, Call.tag, noWriteBeforeCreate, noCreateBeforeBackup]

/-- C8: fail-fast phase sequencing: after an RBAC failure, neither the
operator installation, the broker-resource creation, any descriptor file
I/O, nor the addressing-config creation is invoked; an operator-installation
failure prevents the broker-resource phase and everything after it; a
broker-resource failure prevents all descriptor I/O and the addressing
config; an addressing-config failure prevents the descriptor write. -/
theorem c8_first_failure_stops_later_phases (opts : BrokerOptions) (env : Env) :
    ((∃ e, env.ensureRBAC = some e) →
      CallTag.submarineropEnsure ∉ (Broker opts env).calls.map Call.tag ∧
      CallTag.brokercrEnsure ∉ (Broker opts env).calls.map Call.tag ∧
      CallTag.newFromFile ∉ (Broker opts env).calls.map Call.tag ∧
      CallTag.newFromCluster ∉ (Broker opts env).calls.map Call.tag ∧
      CallTag.backupIfExists ∉ (Broker opts env).calls.map Call.tag ∧
      CallTag.createGlobalnetConfigMap ∉ (Broker opts env).calls.map Call.tag ∧
      CallTag.writeToFile ∉ (Broker opts env).calls.map Call.tag) ∧
    ((∃ e, env.submarineropEnsure = some e) →
      CallTag.brokercrEnsure ∉ (Broker opts env).calls.map Call.tag ∧
      CallTag.newFromFile ∉ (Broker opts env).calls.map Call.tag ∧
      CallTag.newFromCluster ∉ (Broker opts env).calls.map Call.tag ∧
      CallTag.backupIfExists ∉ (Broker opts env).calls.map Call.tag ∧
      CallTag.createGlobalnetConfigMap ∉ (Broker opts env).calls.map Call.tag ∧
      CallTag.writeToFile ∉ (Broker opts env).calls.map Call.tag) ∧
    ((∃ e, env.brokercrEnsure = some e) →
      CallTag.newFromFile ∉ (Broker opts env).calls.map Call.tag ∧
      CallTag.newFromCluster ∉ (Broker opts env).calls.map Call.tag ∧
      CallTag.backupIfExists ∉ (Broker opts env).calls.map Call.tag ∧
      CallTag.createGlobalnetConfigMap ∉ (Broker opts env).calls.map Call.tag ∧
      CallTag.writeToFile ∉ (Broker opts env).calls.map Call.tag) ∧
    ((∃ e, env.createGlobalnetConfigMap = some e) →
      CallTag.writeToFile ∉ (Broker opts env).calls.map Call.tag) := by
  refine ⟨?_, ?_, ?_, ?_⟩
  · rintro ⟨e0, he⟩
    rcases broker_tags_cases opts env with h | h | h | ⟨P, G, W, hP, hG, hW, hres, h⟩
    · simp [h]
    · simp [h]
    · rcases deploy_cases (checkGlobalnetConfig opts env).1 env with
        ⟨e, h1, hdep⟩ | ⟨e, h1, h2, hdep⟩ | ⟨e, img, h1, h2, h3, hdep⟩ |
        ⟨e, img, h1, h2, h3, h4, hdep⟩ | ⟨img, h1, h2, h3, h4, hdep⟩ <;>
        simp_all [Call.tag]
    · rcases deploy_cases (checkGlobalnetConfig opts env).1 env with
        ⟨e, h1, hdep⟩ | ⟨e, h1, h2, hdep⟩ | ⟨e, img, h1, h2, h3, hdep⟩ |
        ⟨e, img, h1, h2, h3, h4, hdep⟩ | ⟨img, h1, h2, h3, h4, hdep⟩ <;>
        simp_all [Call.tag]
  · rintro ⟨e0, he⟩
    rcases broker_tags_cases opts env with h | h | h | ⟨P, G, W, hP, hG, hW, hres, h⟩
    · simp [h]
    · simp [h]
    · rcases deploy_cases (checkGlobalnetConfig opts env).1 env with
        ⟨e, h1, hdep⟩ | ⟨e, h1, h2, hdep⟩ | ⟨e, img, h1, h2, h3, hdep⟩ |
        ⟨e, img, h1, h2, h3, h4, hdep⟩ | ⟨img, h1, h2, h3, h4, hdep⟩ <;>
        simp_all [Call.tag]
    · rcases deploy_cases (checkGlobalnetConfig opts env).1 env with
        ⟨e, h1, hdep⟩ | ⟨e, h1, h2, hdep⟩ | ⟨e, img, h1, h2, h3, hdep⟩ |
        ⟨e, img, h1, h2, h3, h4, hdep⟩ | ⟨img, h1, h2, h3, h4, hdep⟩ <;>
        simp_all [Call.tag]
  · rintro ⟨e0, he⟩
    rcases broker_tags_cases opts env with h | h | h | ⟨P, G, W, hP, hG, hW, hres, h⟩
    · simp [h]
    · simp [h]
    · rcases deploy_cases (checkGlobalnetConfig opts env).1 env with
        ⟨e, h1, hdep⟩ | ⟨e, h1, h2, hdep⟩ | ⟨e, img, h1, h2, h3, hdep⟩ |
        ⟨e, img, h1, h2, h3, h4, hdep⟩ | ⟨img, h1, h2, h3, h4, hdep⟩ <;>
        simp_all [Call.tag]
    · rcases deploy_cases (checkGlobalnetConfig opts env).1 env with
        ⟨e, h1, hdep⟩ | ⟨e, h1, h2, hdep⟩ | ⟨e, img, h1, h2, h3, hdep⟩ |
        ⟨e, img, h1, h2, h3, h4, hdep⟩ | ⟨img, h1, h2, h3, h4, hdep⟩ <;>
        simp_all [Call.tag]
  · rintro ⟨e0, he⟩
    rcases broker_tags_cases opts env with h | h | h | ⟨P, G, W, hP, hG, hW, hres, h⟩
    · simp [h]
    · simp [h]
    · rcases deploy_cases (checkGlobalnetConfig opts env).1 env with
        ⟨e, h1, hdep⟩ | ⟨e, h1, h2, hdep⟩ | ⟨e, img, h1, h2, h3, hdep⟩ |
        ⟨e, img, h1, h2, h3, h4, hdep⟩ | ⟨img, h1, h2, h3, h4, hdep⟩ <;>
        simp_all [Call.tag]
    · rcases deploy_cases (checkGlobalnetConfig opts env).1 env with
        ⟨e, h1, hdep⟩ | ⟨e, h1, h2, hdep⟩ | ⟨e, img, h1, h2, h3, hdep⟩ |
        ⟨e, img, h1, h2, h3, h4, hdep⟩ | ⟨img, h1, h2, h3, h4, hdep⟩
      · rw [hdep] at hres; simp at hres
      · rw [hdep] at hres; simp at hres
      · rw [hdep] at hres; simp at hres
      · rw [hdep] at hres; simp at hres
      · rcases hP with hP | hP <;> rcases hG with hG | hG <;>
          rcases hW with hW | hW | hW | hW | ⟨hcg, hW⟩ <;> subst hP hG hW <;>
          simp_all [Call.tag]

/-- The BrokerSpec that reaches `brokercr.Ensure` for `optsGlobalnet` under
`envAllOk`: the user components, globalnet flags, and the resolved cluster
size — without the derived globalnet component. -/
def specGlobalnetResolved : BrokerSpec :=
  { Components := [components.Connectivity]
    GlobalnetEnabled := true
    GlobalnetCIDRRange := "240.0.0.0/8"
    DefaultGlobalnetClusterSize := 8
    DefaultCustomDomains := [] }

/-- C3 counterexample: with globalnet enabled and user components
{connectivity}, the only spec passed to `brokercr.Ensure` has component list
["connectivity"]: it does not include the derived globalnet component, so
the broker resource request does not carry the final component set. -/
theorem c3_counterexample :
    brokercrSpecs (Broker optsGlobalnet envAllOk).calls = [specGlobalnetResolved] ∧
    components.Globalnet ∉ specGlobalnetResolved.Components := by
  decide

set_option maxHeartbeats 1000000 in
/-- C3 (amended): the spec passed to the broker-resource phase is the
request BrokerSpec itself (with its addressing flags, and the cluster size
possibly resolved by validation): its component list is exactly the
user-supplied list — the derived globalnet component is not added to it. -/
theorem c3_brokercr_gets_user_component_list (opts : BrokerOptions) (env : Env)
    (ns : String) (spec : BrokerSpec)
    (h : Call.brokercrEnsure ns spec ∈ (Broker opts env).calls) :
    ns = opts.BrokerNamespace ∧
    spec.Components = opts.BrokerSpec.Components ∧
    spec.GlobalnetEnabled = opts.BrokerSpec.GlobalnetEnabled ∧
    spec.GlobalnetCIDRRange = opts.BrokerSpec.GlobalnetCIDRRange ∧
    spec.DefaultCustomDomains = opts.BrokerSpec.DefaultCustomDomains := by
  have hp := checkGlobalnetConfig_fst opts env
  simp only [Broker, deploy, brokerTail] at h
  repeat' split at h
  all_goals simp_all

/-- C3 witness: the amended statement applied to the concrete
globalnet-enabled run. -/
theorem c3_witness :
    "submariner-k8s-broker" = optsGlobalnet.BrokerNamespace ∧
    specGlobalnetResolved.Components = optsGlobalnet.BrokerSpec.Components ∧
    specGlobalnetResolved.GlobalnetEnabled = optsGlobalnet.BrokerSpec.GlobalnetEnabled ∧
    specGlobalnetResolved.GlobalnetCIDRRange = optsGlobalnet.BrokerSpec.GlobalnetCIDRRange ∧
    specGlobalnetResolved.DefaultCustomDomains = optsGlobalnet.BrokerSpec.DefaultCustomDomains :=
  c3_brokercr_gets_user_component_list optsGlobalnet envAllOk
    "submariner-k8s-broker" specGlobalnetResolved (by decide)

set_option maxHeartbeats 1000000 in
/-- C7: the globalnet component is never accepted from the user — any
component set containing it fails validation — and when globalnetEnabled is
true, the component set recorded in the descriptor that `Broker` writes
automatically contains the globalnet component. -/
theorem c7_globalnet_derived_automatically :
    (∀ s : List String, components.Globalnet ∈ s → isValidComponents s ≠ none) ∧
    (∀ (opts : BrokerOptions) (env : Env) (f : String) (data : SubctlData),
      opts.BrokerSpec.GlobalnetEnabled = true →
      Call.writeToFile f data ∈ (Broker opts env).calls →
      components.Globalnet ∈ data.Components) := by
  constructor
  · intro s hg hnone
    rcases (isValidComponents_none_iff s).mp hnone with ⟨-, hall⟩
    exact absurd (hall _ hg) (by decide)
  · intro opts env f data hen h
    simp only [Broker, deploy, brokerTail] at h
    repeat' split at h
    all_goals simp_all [SubctlData.SetComponents, mem_addElem_self]

/-- A world identical to `envAllOk` except that a prior descriptor file
loads successfully. -/
def envReuse : Env := { envAllOk with newFromFile := Except.ok dataFresh }

/-- A world in which the descriptor write fails and everything else
succeeds. -/
def envWriteFail : Env := { envAllOk with writeToFile := some (GoError.msg "disk full") }

/-- A world in which RBAC, operator installation, broker-resource creation
and addressing-config creation would all fail. -/
def envAllFail : Env :=
  { envAllOk with
    ensureRBAC := some (GoError.msg "rbac denied")
    submarineropEnsure := some (GoError.msg "operator rollout failed")
    brokercrEnsure := some (GoError.msg "broker cr rejected")
    createGlobalnetConfigMap := some (GoError.msg "configmap exists") }

set_option maxHeartbeats 1000000 in
/-- C5: the PSK-reuse decision when no descriptor path is pinned: if loading
the conventional file succeeds, a "Reusing IPsec PSK" warning is reported
and the descriptor build is invoked with that file (its secret material is
reused); if the load fails for any reason, no error is raised — the run
continues into the descriptor build with the path still empty — and the
"new IPsec PSK will be generated" message is reported instead. -/
theorem c5_psk_reuse_decision (opts : BrokerOptions) (env : Env)
    (hv : isValidComponents (mkSet opts.BrokerSpec.Components) = none)
    (hc : (checkGlobalnetConfig opts env).2 = none)
    (hk : env.forCluster = Except.ok ())
    (hd : (deploy (checkGlobalnetConfig opts env).1 env).result = none)
    (hip : opts.IpsecSubmFile = "") :
    (∀ d, env.newFromFile = Except.ok d →
      Event.warned ("Reusing IPsec PSK from existing " ++ brokerDetailsFilename) ∈
        (Broker opts env).events ∧
      Call.newFromCluster opts.BrokerNamespace brokerDetailsFilename ∈
        (Broker opts env).calls) ∧
    (∀ e, env.newFromFile = Except.error e →
      Event.succeeded ("A new IPsec PSK will be generated for " ++ brokerDetailsFilename) ∈
        (Broker opts env).events ∧
      Call.newFromCluster opts.BrokerNamespace opts.IpsecSubmFile ∈
        (Broker opts env).calls) := by
  obtain ⟨hp1, hp2, hp3, hp4, hp5, hp6, hp7, hp8, hp9⟩ := checkGlobalnetConfig_fst opts env
  constructor
  · intro d hnf
    simp [Broker, brokerTail, hv, hc, hk, hd, hnf, hp1, hp2, hip]
    repeat' split
    all_goals simp_all
  · intro e hnf
    simp [Broker, brokerTail, hv, hc, hk, hd, hnf, hp1, hp2, hip]
    repeat' split
    all_goals simp_all

/-- C5 witness: the no-prior-file case of the baseline run reports the
new-key message and proceeds to the descriptor build. -/
theorem c5_witness :
    Event.succeeded ("A new IPsec PSK will be generated for " ++ brokerDetailsFilename) ∈
      (Broker optsBase envAllOk).events ∧
    Call.newFromCluster optsBase.BrokerNamespace optsBase.IpsecSubmFile ∈
      (Broker optsBase envAllOk).calls :=
  (c5_psk_reuse_decision optsBase envAllOk (by decide) (by decide) rfl (by decide) rfl).2
    (GoError.msg "open broker-info.subm: no such file or directory") rfl

set_option maxHeartbeats 1000000 in
/-- C10: `Broker` mutates its input options: validation overwrites the
cluster-size field with the resolved size when globalnet is enabled, and a
successful PSK-reuse decision sets the descriptor path to the conventional
filename in the final options. -/
theorem c10_broker_mutates_request (opts : BrokerOptions) (env : Env) :
    (∀ n, opts.BrokerSpec.GlobalnetEnabled = true →
      env.getValidClusterSize opts.BrokerSpec.GlobalnetCIDRRange
        opts.BrokerSpec.DefaultGlobalnetClusterSize = (n, none) →
      (checkGlobalnetConfig opts env).1.BrokerSpec.DefaultGlobalnetClusterSize = n) ∧
    (isValidComponents (mkSet opts.BrokerSpec.Components) = none →
      (checkGlobalnetConfig opts env).2 = none →
      env.forCluster = Except.ok () →
      (deploy (checkGlobalnetConfig opts env).1 env).result = none →
      opts.IpsecSubmFile = "" →
      ∀ d, env.newFromFile = Except.ok d →
      (Broker opts env).finalOptions.IpsecSubmFile = brokerDetailsFilename) := by
  obtain ⟨hp1, hp2, hp3, hp4, hp5, hp6, hp7, hp8, hp9⟩ := checkGlobalnetConfig_fst opts env
  constructor
  · intro n hen hg
    simp [checkGlobalnetConfig, hen, hg]
  · intro hv hc hk hd hip d hnf
    simp [Broker, brokerTail, hv, hc, hk, hd, hnf, hp1, hip]
    repeat' split
    all_goals simp_all

/-- C10 witness: both mutations at concrete inputs: the resolved cluster
size 8 is written back for the globalnet request, and the reuse decision
pins the descriptor path in the final options of the baseline request. -/
theorem c10_witness :
    (checkGlobalnetConfig optsGlobalnet envAllOk).1.BrokerSpec.DefaultGlobalnetClusterSize = 8 ∧
    (Broker optsBase envReuse).finalOptions.IpsecSubmFile = brokerDetailsFilename :=
  ⟨(c10_broker_mutates_request optsGlobalnet envAllOk).1 8 rfl rfl,
   (c10_broker_mutates_request optsBase envReuse).2 (by decide) (by decide) rfl (by decide)
     rfl dataFresh rfl⟩

set_option maxHeartbeats 1000000 in
/-- C1 (amended): only the RBAC, operator-installation, broker-resource and
final descriptor-write phases announce their errors to the reporter
(`EndedWith` a non-nil error, or `Failed`) while wrapping and returning
them; the operator-image-resolution, descriptor-build, backup,
existing-globalnet-validation and addressing-config-creation error paths
wrap and return their errors without any reporter failure event. -/
theorem c1_phase_error_reporting (opts : BrokerOptions) (env : Env) :
    (∀ e, env.ensureRBAC = some e →
      Event.endedWith (some e) ∈ (deploy opts env).events ∧
      (deploy opts env).result = some (GoError.wrap "error setting up broker RBAC" e)) ∧
    (∀ e, env.ensureRBAC = none → env.forOperatorImage = Except.error e →
      (deploy opts env).result = some (GoError.wrap "error getting Operator image" e) ∧
      ((deploy opts env).events.all fun ev => !ev.isFailure) = true) ∧
    (∀ e img, env.ensureRBAC = none → env.forOperatorImage = Except.ok img →
      env.submarineropEnsure = some e →
      Event.endedWith (some e) ∈ (deploy opts env).events ∧
      (deploy opts env).result = some (GoError.wrap "error deploying the operator" e)) ∧
    (∀ e img, env.ensureRBAC = none → env.forOperatorImage = Except.ok img →
      env.submarineropEnsure = none → env.brokercrEnsure = some e →
      Event.failed "Broker deployment failed" ∈ (deploy opts env).events ∧
      (deploy opts env).result = some (GoError.wrap "error deploying the broker" e)) ∧
    (∀ e d nf,
      isValidComponents (mkSet opts.BrokerSpec.Components) = none →
      (checkGlobalnetConfig opts env).2 = none →
      env.forCluster = Except.ok () →
      (deploy (checkGlobalnetConfig opts env).1 env).result = none →
      (∀ ns f, env.newFromCluster ns f = Except.ok d) →
      env.backupIfExists = Except.ok nf →
      env.validateExistingGlobalNetworks = none →
      env.createGlobalnetConfigMap = none →
      env.writeToFile = some e →
      Event.endedWith (some e) ∈ (Broker opts env).events ∧
      (Broker opts env).result = some (GoError.wrap "error writing the broker information" e)) ∧
    (∀ e img,
      isValidComponents (mkSet opts.BrokerSpec.Components) = none →
      (checkGlobalnetConfig opts env).2 = none →
      env.forCluster = Except.ok () →
      env.ensureRBAC = none → env.forOperatorImage = Except.ok img →
      env.submarineropEnsure = none → env.submarineropEvents = [] →
      env.brokercrEnsure = none →
      (∀ ns f, env.newFromCluster ns f = Except.error e) →
      (Broker opts env).result =
        some (GoError.wrap "error retrieving preparing the subm data file" e) ∧
      ((Broker opts env).events.all fun ev => !ev.isFailure) = true) ∧
    (∀ e d img,
      isValidComponents (mkSet opts.BrokerSpec.Components) = none →
      (checkGlobalnetConfig opts env).2 = none →
      env.forCluster = Except.ok () →
      env.ensureRBAC = none → env.forOperatorImage = Except.ok img →
      env.submarineropEnsure = none → env.submarineropEvents = [] →
      env.brokercrEnsure = none →
      (∀ ns f, env.newFromCluster ns f = Except.ok d) →
      env.backupIfExists = Except.error e →
      (Broker opts env).result = some (GoError.wrap "error backing up the brokerfile" e) ∧
      ((Broker opts env).events.all fun ev => !ev.isFailure) = true) ∧
    (∀ e d nf img,
      isValidComponents (mkSet opts.BrokerSpec.Components) = none →
      (checkGlobalnetConfig opts env).2 = none →
      env.forCluster = Except.ok () →
      env.ensureRBAC = none → env.forOperatorImage = Except.ok img →
      env.submarineropEnsure = none → env.submarineropEvents = [] →
      env.brokercrEnsure = none →
      (∀ ns f, env.newFromCluster ns f = Except.ok d) →
      env.backupIfExists = Except.ok nf →
      opts.BrokerSpec.GlobalnetEnabled = true →
      env.validateExistingGlobalNetworks = some e →
      (Broker opts env).result =
        some (GoError.wrap "error validating existing globalCIDR configmap" e) ∧
      ((Broker opts env).events.all fun ev => !ev.isFailure) = true) ∧
    (∀ e d nf img,
      isValidComponents (mkSet opts.BrokerSpec.Components) = none →
      (checkGlobalnetConfig opts env).2 = none →
      env.forCluster = Except.ok () →
      env.ensureRBAC = none → env.forOperatorImage = Except.ok img →
      env.submarineropEnsure = none → env.submarineropEvents = [] →
      env.brokercrEnsure = none →
      (∀ ns f, env.newFromCluster ns f = Except.ok d) →
      env.backupIfExists = Except.ok nf →
      env.validateExistingGlobalNetworks = none →
      env.createGlobalnetConfigMap = some e →
      (Broker opts env).result =
        some (GoError.wrap "error creating globalCIDR configmap on Broker" e) ∧
      ((Broker opts env).events.all fun ev => !ev.isFailure) = true) := by
  obtain ⟨hp1, hp2, hp3, hp4, hp5, hp6, hp7, hp8, hp9⟩ := checkGlobalnetConfig_fst opts env
  refine ⟨?_, ?_, ?_, ?_, ?_, ?_, ?_, ?_, ?_⟩
  · intro e hr
    simp [deploy, hr]
  · intro e hr hi
    simp [deploy, hr, hi, Event.isFailure]
  · intro e img hr hi hs
    simp [deploy, hr, hi, hs]
  · intro e img hr hi hs hcr
    simp [deploy, hr, hi, hs, hcr]
  · intro e d nf hv hc hk hd hnc hb hvg hcg hw
    simp [Broker, brokerTail, hv, hc, hk, hd, hnc, hb, hvg, hcg, hw, hp2, hp4, wrapErr]
    repeat' split
    all_goals simp_all
  · intro e img hv hc hk hr hi hs hse hcr hnc
    simp [Broker, deploy, hv, hc, hk, hr, hi, hs, hse, hcr, hnc, hp2, Event.isFailure]
    repeat' split
    all_goals simp_all [Event.isFailure]
  · intro e d img hv hc hk hr hi hs hse hcr hnc hb
    simp [Broker, deploy, hv, hc, hk, hr, hi, hs, hse, hcr, hnc, hb, hp2, Event.isFailure]
    repeat' split
    all_goals simp_all [Event.isFailure]
  · intro e d nf img hv hc hk hr hi hs hse hcr hnc hb hen hvg
    simp [Broker, deploy, brokerTail, hv, hc, hk, hr, hi, hs, hse, hcr, hnc, hb, hen, hvg,
      hp2, hp4, Event.isFailure]
    repeat' split
    all_goals simp_all [Event.isFailure]
  · intro e d nf img hv hc hk hr hi hs hse hcr hnc hb hvg hcg
    simp [Broker, deploy, brokerTail, hv, hc, hk, hr, hi, hs, hse, hcr, hnc, hb, hvg, hcg,
      hp2, hp4, Event.isFailure]
    repeat' split
    all_goals simp_all [Event.isFailure]

/-- C1 witness: the amended statement at concrete inputs: the image-failure
run wraps its error with no failure event, and the write-failure run both
announces `EndedWith` the error and wraps it. -/
theorem c1_witness :
    ((deploy optsBase envImageFail).result =
      some (GoError.wrap "error getting Operator image"
        (GoError.msg "no operator image available")) ∧
     ((deploy optsBase envImageFail).events.all fun ev => !ev.isFailure) = true) ∧
    (Event.endedWith (some (GoError.msg "disk full")) ∈ (Broker optsBase envWriteFail).events ∧
     (Broker optsBase envWriteFail).result =
       some (GoError.wrap "error writing the broker information" (GoError.msg "disk full"))) :=
  ⟨(c1_phase_error_reporting optsBase envImageFail).2.1
      (GoError.msg "no operator image available") rfl rfl,
   (c1_phase_error_reporting optsBase envWriteFail).2.2.2.2.1 (GoError.msg "disk full")
      dataFresh "" (by decide) (by decide) rfl (by decide) (fun ns f => rfl) rfl rfl rfl rfl⟩

/-- C8 witness: with RBAC (resp. addressing-config creation) failing, the
operator installation (resp. the descriptor write) is never invoked. -/
theorem c8_witness :
    CallTag.submarineropEnsure ∉ (Broker optsBase envAllFail).calls.map Call.tag ∧
    CallTag.writeToFile ∉ (Broker optsBase envAllFail).calls.map Call.tag :=
  ⟨((c8_first_failure_stops_later_phases optsBase envAllFail).1
      ⟨GoError.msg "rbac denied", rfl⟩).1,
   (c8_first_failure_stops_later_phases optsBase envAllFail).2.2.2
      ⟨GoError.msg "configmap exists", rfl⟩⟩

/-- C7 witness: a request listing globalnet fails validation, and the
descriptor written by the concrete globalnet-enabled run records the
globalnet component. -/
theorem c7_witness :
    isValidComponents [components.Globalnet] ≠ none ∧
    components.Globalnet ∈
      (SubctlData.mk false [components.Connectivity, components.Globalnet] none).Components :=
  ⟨c7_globalnet_derived_automatically.1 [components.Globalnet] (by decide),
   c7_globalnet_derived_automatically.2 optsGlobalnet envAllOk brokerDetailsFilename
     (SubctlData.mk false [components.Connectivity, components.Globalnet] none) rfl (by decide)⟩
